import Mathlib

/-!
Shallow embedding of the PathOfOCR monitor (src/monitor.py) and proofs of
the specification's testable properties.

The embedding follows the Python source:
  * `matches_desired` embeds `matches_desired` (monitor.py lines 155-167);
    Python truthiness of a string is modelled as non-emptiness, `s.lower()`
    as a character-wise ASCII lower-casing (`pyLower`), and the Python
    substring test `a in b` as `pyIn`.
  * `find_window_rect` embeds `find_window_rect` (lines 82-99): the window
    list and the availability of `win32gui` are explicit parameters; the
    Python callback builds the list of rectangles of visible windows with a
    truthy title containing the substring and takes the first one.
  * `resolveRegion` embeds the region-selection step of `main`
    (lines 201-206); `monitor_region` is an `Option Region` (a present
    region always renders a non-empty, hence truthy, Python dict).
  * `preprocess_for_ocr` embeds `preprocess_for_ocr` (lines 110-115) over an
    explicit image model; the Lanczos resampling kernel of `Image.resize` is
    a parameter because only the dimension contract of `resize` is relied
    upon (PIL returns an image of exactly the requested size).
  * `ocr_image` embeds `ocr_image` (lines 118-126); the engine call is an
    explicit `Except` outcome.
  * `alert_gate` embeds the alerting step of `main` (lines 253-263) with
    `last_alert` initialised to `0` (line 181); time values are rationals.
-/

namespace PathOfOCR

/-- Character-wise lower-casing of a string, modelling Python `str.lower()`
on the ASCII range (`Char.toLower` maps `A`-`Z` to `a`-`z` and fixes
everything else). -/
def pyLower (s : String) : String := ⟨s.data.map Char.toLower⟩

/-- Substring containment on lists, modelling the Python `in` operator on
strings: `pyInList n h` is true iff `n` occurs contiguously in `h`
(the empty list occurs in everything). -/
def pyInList (needle : List Char) : List Char → Bool
  | [] => needle.isEmpty
  | c :: t => needle.isPrefixOf (c :: t) || pyInList needle t

/-- Python `needle in hay` on strings. -/
def pyIn (needle hay : String) : Bool := pyInList needle.data hay.data

/-- Embedding of `matches_desired(text, desired_list)`:
returns `[]` for falsy (empty) `text`; otherwise keeps, in list order, the
truthy (non-empty) items whose lower-cased form occurs in the lower-cased
text. -/
def matches_desired (text : String) (desired_list : List String) : List String :=
  if text = "" then []
  else desired_list.filter (fun item => item != "" && pyIn (pyLower item) (pyLower text))

/-- Modelled from the spec's wording of `findMatches` for comparison with
`matches_desired`: exactly those phrases whose lower-cased form is a
substring of the lower-cased text, in desired-outcomes order. -/
def specFindMatches (text : String) (desired : List String) : List String :=
  desired.filter (fun p => pyIn (pyLower p) (pyLower text))

/-- A capture region, as the dict `{left, top, width, height}`. -/
structure Region where
  left : Int
  top : Int
  width : Int
  height : Int
deriving DecidableEq, Repr

/-- A top-level window as seen through `win32gui`: visibility flag, title,
and rectangle `(left, top, right, bottom)` as returned by
`GetWindowRect`. -/
structure WinInfo where
  visible : Bool
  title : String
  rect : Int × Int × Int × Int
deriving DecidableEq, Repr

/-- The match test of the enumeration callback in `find_window_rect`
(lines 89-91): the window is visible, its title is truthy (non-empty), and
the lower-cased substring occurs in the lower-cased title. -/
def winMatches (title_substring : String) (w : WinInfo) : Bool :=
  w.visible && (w.title != "" && pyIn (pyLower title_substring) (pyLower w.title))

/-- Modelled from the spec's wording of the resolver's match criterion, for
comparison with `winMatches`: a visible window whose title contains
`windowTitleSubstring` case-insensitively (no truthiness test on the
title). -/
def specWindowMatch (title_substring : String) (w : WinInfo) : Bool :=
  w.visible && pyIn (pyLower title_substring) (pyLower w.title)

/-- Conversion of a `(left, top, right, bottom)` rectangle into a `Region`,
as in line 97-98 of the source. -/
def rectToRegion (r : Int × Int × Int × Int) : Region :=
  { left := r.1, top := r.2.1, width := r.2.2.1 - r.1, height := r.2.2.2 - r.2.1 }

/-- Embedding of `find_window_rect(title_substring)`: `none` when `win32gui`
is unavailable; otherwise the region of the first window (in enumeration
order) passing `winMatches`, or `none` when there is none. -/
def find_window_rect (win32gui_available : Bool) (windows : List WinInfo)
    (title_substring : String) : Option Region :=
  if !win32gui_available then none
  else
    match windows.filter (winMatches title_substring) with
    | w :: _ => some (rectToRegion w.rect)
    | [] => none

/-- Embedding of the region-selection step of the main loop (lines 201-206):
a configured `monitor_region` is used unconditionally, otherwise the window
search runs. -/
def resolveRegion (region_cfg : Option Region) (win32gui_available : Bool)
    (windows : List WinInfo) (window_title : String) : Option Region :=
  match region_cfg with
  | some r => some r
  | none => find_window_rect win32gui_available windows window_title

/-- An RGB frame: dimensions and a pixel function. -/
structure RGBImage where
  width : Nat
  height : Nat
  px : Nat → Nat → Nat × Nat × Nat

/-- A single-channel (mode `L`) image: dimensions and an intensity
function. -/
structure GrayImage where
  width : Nat
  height : Nat
  px : Nat → Nat → Nat

/-- Embedding of `ImageOps.grayscale`: same dimensions, ITU-R 601-2 luma
transform `L = (R*299 + G*587 + B*114) / 1000` as documented for PIL mode
`L`. -/
def grayscale (img : RGBImage) : GrayImage :=
  { width := img.width, height := img.height,
    px := fun x y =>
      let p := img.px x y
      (p.1 * 299 + p.2.1 * 587 + p.2.2 * 114) / 1000 }

/-- Embedding of `Image.resize((w, h), resample)`: the result has exactly
the requested dimensions; the pixel content is produced by the resampling
kernel (Lanczos in the source), taken as a parameter. -/
def resize (img : GrayImage) (w h : Nat)
    (resample : GrayImage → Nat → Nat → Nat → Nat → Nat) : GrayImage :=
  { width := w, height := h, px := fun x y => resample img w h x y }

/-- Clamping of a filter output to the byte range, as PIL stores mode-`L`
pixels. -/
def clampByte (v : Int) : Nat :=
  if v < 0 then 0 else if v > 255 then 255 else v.toNat

/-- Embedding of `ImageFilter.SHARPEN`: a 3x3 convolution with weights
`(-2,...,-2, 32, -2,...,-2)` and divisor 16, size-preserving; border pixels
are copied unchanged as PIL's kernel filter does. -/
def sharpen (img : GrayImage) : GrayImage :=
  { width := img.width, height := img.height,
    px := fun x y =>
      if x = 0 ∨ y = 0 ∨ x + 1 ≥ img.width ∨ y + 1 ≥ img.height then img.px x y
      else
        let p : Nat → Nat → Int := fun i j => (img.px i j : Int)
        let acc := 32 * p x y -
          2 * (p (x-1) (y-1) + p x (y-1) + p (x+1) (y-1) + p (x-1) y +
               p (x+1) y + p (x-1) (y+1) + p x (y+1) + p (x+1) (y+1))
        clampByte (acc / 16) }

/-- Embedding of `preprocess_for_ocr(img, scale)`: grayscale, resize to
`(w*scale, h*scale)`, sharpen. -/
def preprocess_for_ocr (resample : GrayImage → Nat → Nat → Nat → Nat → Nat)
    (img : RGBImage) (scale : Nat) : GrayImage :=
  let gray := grayscale img
  let w := gray.width
  let h := gray.height
  let gray2 := resize gray (w * scale) (h * scale) resample
  sharpen gray2

/-- Embedding of `ocr_image`: the engine call's outcome is passed in; an
exception (`Except.error`) is absorbed into the empty string, a successful
result is returned unchanged. -/
def ocr_image (engine_result : Except String String) : String :=
  match engine_result with
  | .ok t => t
  | .error _ => ""

/-- Embedding of the alerting step of the main loop (lines 253-263), one
cycle: given the cooldown, the current `last_alert`, the current time and
the match list, returns the new `last_alert` and whether a notification was
dispatched. Python truthiness of `matched` is non-emptiness. -/
def alert_gate (cooldown last_alert now : ℚ) (matched : List String) : ℚ × Bool :=
  if !matched.isEmpty then
    if now - last_alert > cooldown then (now, true) else (last_alert, false)
  else (last_alert, false)

/-! Helper lemmas. -/

/-- A string equals `""` exactly when its character list is empty. -/
theorem string_data_eq_nil_iff (s : String) : s.data = [] ↔ s = "" := by
  constructor
  · intro h
    cases s with
    | mk d => subst h; rfl
  · intro h
    subst h
    rfl

/-- A non-empty phrase never occurs in the lower-casing of the empty
text. -/
theorem pyIn_lower_empty_text (p : String) (h : p ≠ "") :
    pyIn (pyLower p) (pyLower "") = false := by
  have hd : p.data ≠ [] := fun hnil => h ((string_data_eq_nil_iff p).mp hnil)
  show (p.data.map Char.toLower).isEmpty = false
  cases hp : p.data with
  | nil => exact absurd hp hd
  | cons c t => rfl

/-! Theorems for the claims. -/

/-- C1: for every text and every list of non-empty phrases,
`matches_desired` returns exactly the phrases whose lower-cased form occurs
in the lower-cased text, in desired-outcomes order (`specFindMatches`), and
in particular `matches_desired "The VEILED suffix appears" ["veiled","foo"]`
is `["veiled"]`. -/
theorem findMatches_filter_spec :
    (∀ (text : String) (desired : List String), (∀ p ∈ desired, p ≠ "") →
      matches_desired text desired = specFindMatches text desired) ∧
    matches_desired "The VEILED suffix appears" ["veiled", "foo"] = ["veiled"] := by
  constructor
  · intro text desired hne
    unfold matches_desired specFindMatches
    by_cases htext : text = ""
    · subst htext
      rw [if_pos rfl]
      symm
      rw [List.filter_eq_nil_iff]
      intro p hp
      rw [pyIn_lower_empty_text p (hne p hp)]
      exact Bool.false_ne_true
    · rw [if_neg htext]
      refine List.filter_congr ?_
      intro p hp
      have hpb : (p != "") = true := bne_iff_ne.mpr (hne p hp)
      rw [hpb, Bool.true_and]
  · decide

/-- Witness for C1 at a concrete input. -/
theorem findMatches_filter_spec_witness :
    (∀ p ∈ ["veiled", "foo"], p ≠ "") ∧
    matches_desired "The VEILED suffix appears" ["veiled", "foo"] =
      specFindMatches "The VEILED suffix appears" ["veiled", "foo"] :=
  ⟨by decide,
   findMatches_filter_spec.1 "The VEILED suffix appears" ["veiled", "foo"] (by decide)⟩

/-- C2 counterexample: with cooldown 1 and the initial sentinel
`last_alert = 0`, a non-empty match at `t = 0` is suppressed
(`0 - 0 > 1` is false), not dispatched as the claim states. -/
theorem alert_gate_t0_suppressed :
    alert_gate 1 0 0 ["veiled"] = (0, false) ∧
    alert_gate 1 0 0 ["veiled"] ≠ (0, true) := by
  constructor
  · norm_num [alert_gate]
  · norm_num [alert_gate]

/-- C2 amended: with cooldown 1 and the sentinel `last_alert = 0`, the
match at `t = 0` is suppressed leaving the state at 0, the match at
`t = 1/2` is suppressed, and the match at `t = 6/5` dispatches and sets the
state to `6/5`. -/
theorem alert_cooldown_scenario :
    alert_gate 1 0 0 ["veiled"] = (0, false) ∧
    alert_gate 1 (alert_gate 1 0 0 ["veiled"]).1 (1/2) ["veiled"] = (0, false) ∧
    alert_gate 1 (alert_gate 1 (alert_gate 1 0 0 ["veiled"]).1 (1/2) ["veiled"]).1 (6/5) ["veiled"]
      = (6/5, true) := by
  norm_num [alert_gate]

/-- C3 counterexample: with cooldown 1 ≥ 0 and `now = 1/2 ≥ 0`, the first
non-empty match while `last_alert` holds the sentinel 0 is suppressed, not
dispatched. -/
theorem first_match_small_now_suppressed :
    alert_gate 1 0 (1/2) ["veiled"] = (0, false) ∧
    alert_gate 1 0 (1/2) ["veiled"] ≠ ((1/2 : ℚ), true) := by
  constructor
  · norm_num [alert_gate]
  · norm_num [alert_gate]

/-- C3 amended: the first non-empty match while `last_alert` holds the
sentinel 0 dispatches and sets `last_alert = now` provided
`now > alertCooldownSeconds` (the code has no separate "never" case). -/
theorem first_match_fires_after_cooldown (cooldown now : ℚ) (m : List String)
    (hm : m ≠ []) (h : cooldown < now) :
    alert_gate cooldown 0 now m = (now, true) := by
  have hme : m.isEmpty = false := by
    cases m with
    | nil => exact absurd rfl hm
    | cons a l => rfl
  have hgt : now - 0 > cooldown := by rwa [sub_zero]
  simp [alert_gate, hme, sub_zero, h]

/-- Witness for the amended C3 at a concrete input. -/
theorem first_match_fires_after_cooldown_witness :
    (["veiled"] ≠ ([] : List String)) ∧ ((1 : ℚ) < 2) ∧
    alert_gate 1 0 2 ["veiled"] = (2, true) :=
  ⟨List.cons_ne_nil _ _, one_lt_two,
   first_match_fires_after_cooldown 1 2 ["veiled"] (List.cons_ne_nil _ _) one_lt_two⟩

/-- C4: preprocessing (grayscale, upscale, sharpen) yields an image of
exactly `(width * scaleFactor, height * scaleFactor)`, for every input
image, every resampling kernel and every `scaleFactor ≥ 1`. -/
theorem preprocess_dims (resample : GrayImage → Nat → Nat → Nat → Nat → Nat)
    (img : RGBImage) (scale : Nat) (_h : 1 ≤ scale) :
    (preprocess_for_ocr resample img scale).width = img.width * scale ∧
    (preprocess_for_ocr resample img scale).height = img.height * scale :=
  ⟨rfl, rfl⟩

/-- Witness for C4 at a concrete input. -/
theorem preprocess_dims_witness :
    1 ≤ 2 ∧
    ((preprocess_for_ocr (fun _ _ _ _ _ => 0) ⟨3, 2, fun _ _ => (0, 0, 0)⟩ 2).width = 3 * 2 ∧
     (preprocess_for_ocr (fun _ _ _ _ _ => 0) ⟨3, 2, fun _ _ => (0, 0, 0)⟩ 2).height = 2 * 2) :=
  ⟨by decide, preprocess_dims (fun _ _ _ _ _ => 0) ⟨3, 2, fun _ _ => (0, 0, 0)⟩ 2 (by decide)⟩

/-- C5: a configured fixed region is returned unconditionally, for every
window list (in particular when a matching window exists), every
availability of window enumeration and every title substring. -/
theorem fixedRegion_precedence (r : Region) (avail : Bool)
    (windows : List WinInfo) (title : String) :
    resolveRegion (some r) avail windows title = some r := rfl

/-- C6 counterexample: a visible window with empty title contains the empty
configured substring in the claim's sense (`specWindowMatch`), yet the
resolver returns `none` rather than that window's bounding rectangle,
because the code also requires the title to be truthy. -/
theorem emptyTitle_window_unmatched_cex :
    specWindowMatch "" ⟨true, "", (0, 0, 10, 10)⟩ = true ∧
    resolveRegion none true [⟨true, "", (0, 0, 10, 10)⟩] "" = none ∧
    resolveRegion none true [⟨true, "", (0, 0, 10, 10)⟩] "" ≠
      some (rectToRegion (0, 0, 10, 10)) :=
  ⟨by decide, by decide, by decide⟩

/-- C6 amended: with no fixed region the resolver returns `none` when
window enumeration is unavailable or no window passes the code's match test
(visible, non-empty title, case-insensitive containment), and returns the
bounding rectangle of the first matching window in enumeration order
otherwise; as a total function it never raises. -/
theorem resolver_window_search_amended :
    (∀ (windows : List WinInfo) (sub : String),
        resolveRegion none false windows sub = none) ∧
    (∀ (windows : List WinInfo) (sub : String),
        (∀ w ∈ windows, winMatches sub w = false) →
        resolveRegion none true windows sub = none) ∧
    (∀ (pre : List WinInfo) (w : WinInfo) (post : List WinInfo) (sub : String),
        (∀ v ∈ pre, winMatches sub v = false) → winMatches sub w = true →
        resolveRegion none true (pre ++ w :: post) sub = some (rectToRegion w.rect)) := by
  refine ⟨fun windows sub => rfl, ?_, ?_⟩
  · intro windows sub h
    have hfil : windows.filter (winMatches sub) = [] := by
      rw [List.filter_eq_nil_iff]
      intro a ha
      rw [h a ha]
      exact Bool.false_ne_true
    show (match windows.filter (winMatches sub) with
          | v :: _ => some (rectToRegion v.rect)
          | [] => none) = none
    rw [hfil]
  · intro pre w post sub hpre hw
    have hfil : (pre ++ w :: post).filter (winMatches sub) =
        w :: post.filter (winMatches sub) := by
      have hpre' : pre.filter (winMatches sub) = [] := by
        rw [List.filter_eq_nil_iff]
        intro a ha
        rw [hpre a ha]
        exact Bool.false_ne_true
      rw [List.filter_append, hpre', List.filter_cons_of_pos hw]
      rfl
    show (match (pre ++ w :: post).filter (winMatches sub) with
          | v :: _ => some (rectToRegion v.rect)
          | [] => none) = some (rectToRegion w.rect)
    rw [hfil]

/-- Witness for the amended C6 at concrete inputs. -/
theorem resolver_window_search_amended_witness :
    (∀ w ∈ [WinInfo.mk false "Path of Exile" (0, 0, 5, 5)], winMatches "path" w = false) ∧
    (∀ v ∈ [WinInfo.mk true "Notepad" (0, 0, 1, 1)], winMatches "path" v = false) ∧
    winMatches "path" (WinInfo.mk true "Path of Exile" (1, 2, 11, 22)) = true ∧
    resolveRegion none false [] "poe" = none ∧
    resolveRegion none true [WinInfo.mk false "Path of Exile" (0, 0, 5, 5)] "path" = none ∧
    resolveRegion none true
      ([WinInfo.mk true "Notepad" (0, 0, 1, 1)] ++
        WinInfo.mk true "Path of Exile" (1, 2, 11, 22) :: []) "path" =
      some (rectToRegion (1, 2, 11, 22)) :=
  ⟨by decide, by decide, by decide,
   resolver_window_search_amended.1 [] "poe",
   resolver_window_search_amended.2.1 [WinInfo.mk false "Path of Exile" (0, 0, 5, 5)]
     "path" (by decide),
   resolver_window_search_amended.2.2 [WinInfo.mk true "Notepad" (0, 0, 1, 1)]
     (WinInfo.mk true "Path of Exile" (1, 2, 11, 22)) [] "path" (by decide) (by decide)⟩

/-- C7: a failing OCR engine call yields the empty string, a successful one
yields the engine's text unchanged; `ocr_image` is total, so no exception
escapes. -/
theorem ocr_image_exception_absorbed (e t : String) :
    ocr_image (Except.error e) = "" ∧ ocr_image (Except.ok t) = t :=
  ⟨rfl, rfl⟩

/-- C8: an empty match list dispatches nothing and leaves `last_alert`
unchanged, for every cooldown, state and time. -/
theorem empty_match_no_dispatch (cooldown last_alert now : ℚ) :
    alert_gate cooldown last_alert now [] = (last_alert, false) := rfl

/-- C9: `matches_desired` returns `[]` on an empty desired list for every
text, and on an empty text for every desired list. -/
theorem findMatches_empty_cases :
    (∀ text : String, matches_desired text [] = []) ∧
    (∀ l : List String, matches_desired "" l = []) := by
  constructor
  · intro text
    unfold matches_desired
    split
    · rfl
    · rfl
  · intro l
    unfold matches_desired
    rw [if_pos rfl]

/-- C10: an empty-string entry of the desired list is never in the result
of `matches_desired`, for every non-empty text, because falsy entries are
filtered out before the substring test. -/
theorem empty_entry_never_matched (text : String) (l : List String) (h : text ≠ "") :
    "" ∉ matches_desired text l := by
  unfold matches_desired
  rw [if_neg h]
  intro hmem
  have hp := (List.mem_filter.mp hmem).2
  simp at hp

/-- Witness for C10 at a concrete input. -/
theorem empty_entry_never_matched_witness :
    ("abc" ≠ "") ∧ "" ∉ matches_desired "abc" ["", "abc"] :=
  ⟨by decide, empty_entry_never_matched "abc" ["", "abc"] (by decide)⟩

end PathOfOCR
